import Mathlib

/-!
Shallow embedding of `vt-py`'s `src/vt/client.py` and of the iterator
components its spec describes, together with theorems settling the claims
about it.

The Python values flowing through the client are JSON documents; we model
them with an inductive `Json` type and model Python's dict operations
(`d.get(k)`, `d[k]`, `k in d`) with explicit `Except` results so that the
dynamic-typing failure modes (`KeyError`, `TypeError`, `AttributeError`)
are visible.  Exceptions raised by the Python code are modelled with the
`Except PyErr` monad.
-/

/-- JSON values.  Numbers are modelled as integers; none of the verified
claims depends on fractional values. -/
inductive Json where
  | null : Json
  | bool (b : Bool) : Json
  | num (n : Int) : Json
  | str (s : String) : Json
  | arr (xs : List Json) : Json
  | obj (kvs : List (String × Json)) : Json
deriving Inhabited

/-- First-match lookup in an association list, as a parsed JSON object
behaves (parsed dicts have unique keys). -/
def lookupKV : List (String × Json) → String → Option Json
  | [], _ => none
  | (k, v) :: rest, key => if k = key then some v else lookupKV rest key

/-- Python truthiness of a JSON value: `None`, `False`, `0`, `""`, `[]`
and `\x7b\x7d` are falsy, everything else is truthy. -/
def Json.truthy : Json → Bool
  | .null => false
  | .bool b => b
  | .num n => n != 0
  | .str s => !s.isEmpty
  | .arr xs => !xs.isEmpty
  | .obj kvs => !kvs.isEmpty

/-- Exceptions the embedded Python code can raise. -/
inductive PyErr where
  | api (code : Json) (message : Json) : PyErr
  | valueError (msg : String) : PyErr
  | keyError (k : String) : PyErr
  | typeError : PyErr
  | attributeError : PyErr
  | jsonDecodeError : PyErr

/-- `d.get(k)`: on a dict, `some v` when the key is present and `none`
otherwise; on any non-dict value Python raises `AttributeError`. -/
def Json.pyGet : Json → String → Except PyErr (Option Json)
  | .obj kvs, k => .ok (lookupKV kvs k)
  | _, _ => .error .attributeError

/-- `d[k]` with a string key: on a dict, the value or `KeyError`; on any
other value Python raises `TypeError`. -/
def Json.pyIndex : Json → String → Except PyErr Json
  | .obj kvs, k =>
    match lookupKV kvs k with
    | some v => .ok v
    | none => .error (.keyError k)
  | _, _ => .error .typeError

/-- Does the first character list start with the second? -/
def startsWithChars : List Char → List Char → Bool
  | _, [] => true
  | [], _ :: _ => false
  | h :: t, n :: ns => h = n && startsWithChars t ns

/-- Does the first character list contain the second as a contiguous
run?  (Python's substring test `needle in hay`.) -/
def hasInfixChars (hay needle : List Char) : Bool :=
  match hay with
  | [] => needle.isEmpty
  | _ :: t => startsWithChars hay needle || hasInfixChars t needle

/-- `k in d` with a string key `k`: key membership on a dict, element
membership on a list, substring test on a string, `TypeError` otherwise. -/
def Json.pyContains : Json → String → Except PyErr Bool
  | .obj kvs, k => .ok (lookupKV kvs k).isSome
  | .arr xs, k => .ok (xs.any (fun x => match x with | .str s => s = k | _ => false))
  | .str s, k => .ok (hasInfixChars s.data k.data)
  | _, _ => .error .typeError

/-- The `APIError` exception of `client.py`: a `code` and a `message`,
packaged as a `PyErr` when raised.  `APIError.from_dict` builds one from
an error envelope: `cls(dict_error['code'], dict_error.get('message'))`;
an absent `message` gives Python `None`, i.e. `Json.null`. -/
def APIError.from_dict (dict_error : Json) : Except PyErr PyErr := do
  let code ← dict_error.pyIndex "code"
  let message ← dict_error.pyGet "message"
  return .api code (message.getD .null)

/-- An HTTP response as the client sees it: a status code, the raw body
text, and the parsed JSON body when the body parses (`none` when
`response.json()` would raise). -/
structure Response where
  status : Nat
  text : String
  jsonBody : Option Json

/-- `await response.json()`. -/
def Response.json (r : Response) : Except PyErr Json :=
  match r.jsonBody with
  | some j => .ok j
  | none => .error .jsonDecodeError

namespace Client

/-- `_API_HOST` of `client.py`. -/
def apiHost : String := "https://www.virustotal.com"

/-- `_ENDPOINT_PREFIX` of `client.py`. -/
def endpointPfx : String := "/api/v3"

/-- `Client._full_url`: an absolute URL (starting with `http`) passes
through unchanged, any other path gets `host + _ENDPOINT_PREFIX`
prepended. -/
def full_url (host path : String) : String :=
  if startsWithChars path.data "http".data then path
  else host ++ endpointPfx ++ path

/-- `Client.get_error`: classify a response.  `200` is success; a `4xx`
body is parsed and its `error` envelope (when truthy) yields the
envelope's APIError, else `ClientError` with the raw body text; any other
status yields `ServerError` with the raw body text. -/
def get_error (resp : Response) : Except PyErr (Option PyErr) :=
  if resp.status = 200 then .ok none
  else if 400 ≤ resp.status ∧ resp.status ≤ 499 then do
    let json_resp ← resp.json
    let error ← json_resp.pyGet "error"
    match error with
    | some e =>
      if e.truthy then do
        let apiErr ← APIError.from_dict e
        return some apiErr
      else return some (.api (.str "ClientError") (.str resp.text))
    | none => return some (.api (.str "ClientError") (.str resp.text))
  else .ok (some (.api (.str "ServerError") (.str resp.text)))

/-- `Client.get_json_response_async`: raise the classified error when
there is one, otherwise return the parsed JSON body. -/
def get_json_response_async (resp : Response) : Except PyErr Json := do
  let error ← get_error resp
  match error with
  | some e => throw e
  | none => resp.json

/-- `Client.get_data_async`: parse the response and return its `data`
field, raising `ValueError` naming the path when the field is absent. -/
def get_data_async (path : String) (resp : Response) : Except PyErr Json := do
  let json_resp ← get_json_response_async resp
  let mem ← json_resp.pyContains "data"
  if !mem then
    throw (.valueError (path ++ " does not returns a data field"))
  else json_resp.pyIndex "data"

end Client

/-- A decoded VirusTotal object: identity fields plus attribute map. -/
structure VTObject where
  id : String
  type : String
  attributes : List (String × Json)

/-- Modelled from the spec: `object.py` is not among the sources; the
Object Decoder contract (§6) says `decode(rawRecord) -> Object` "fails
with a decode error if the record lacks required identity fields", the
identity being `(id, type)` (§3). -/
def Object.from_dict (d : Json) : Except PyErr VTObject :=
  match d with
  | .obj kvs =>
    match lookupKV kvs "id", lookupKV kvs "type" with
    | some (.str i), some (.str t) =>
      .ok ⟨i, t,
        match lookupKV kvs "attributes" with
        | some (.obj a) => a
        | _ => []⟩
    | _, _ => .error (.valueError "record lacks required identity fields")
  | _ => .error (.valueError "record lacks required identity fields")

namespace Client

/-- `Client.get_object_async`: fetch the path's data and decode it into
an object; a `ValueError` raised while doing so (by `get_data_async` or
by the decoder) is re-raised as a `ValueError` naming the path and the
underlying failure.  Other exceptions propagate unchanged. -/
def get_object_async (path : String) (resp : Response) : Except PyErr VTObject :=
  match (do Object.from_dict (← get_data_async path resp) : Except PyErr VTObject) with
  | .ok o => .ok o
  | .error (.valueError msg) =>
    .error (.valueError (path ++ " did not return an object: " ++ msg))
  | .error e => .error e

end Client

/-- Python truthiness of an optional string (`None` and `""` are falsy). -/
def strTruthy : Option String → Bool
  | none => false
  | some s => s != ""

/-- Python's `str()` applied to an optional string (`str(None)` is the
text `None`). -/
def pyStrOfOpt : Option String → String
  | none => "None"
  | some s => s

/-- The state a successfully constructed `Client` stores: the host, the
API key and the agent string (the HTTP session only exists inside a
successfully constructed client, so the error branch of `init` creates
none). -/
structure ClientModel where
  host : String
  apikey : String
  agent : String

namespace Client

/-- `Client.__init__`: a falsy API key raises
`ValueError('Expecting API key, got: %s' % str(apikey))` before anything
is stored; otherwise the client stores the API key and sets the host to
the given host when that is truthy, else to `_API_HOST`. -/
def init (apikey : Option String) (agent : String) (host : Option String) :
    Except PyErr ClientModel :=
  if strTruthy apikey then
    .ok { host := if strTruthy host then host.getD "" else apiHost
          apikey := apikey.getD ""
          agent := agent }
  else
    .error (.valueError ("Expecting API key, got: " ++ pyStrOfOpt apikey))

/-- `Client.close` (line 190 of `client.py`): its body is
`run_until_complete(self.close(*args, **kwargs))`, which re-enters
`close` itself.  The argument bounds the recursion depth; `none` means
the call performed that many self-calls without completing. -/
def close : Nat → Option Unit
  | 0 => none
  | n + 1 => close n

end Client

/-- The feed types of `client.py`. -/
inductive FeedType where
  | files
deriving DecidableEq

/-- Modelled from the spec: `iterator.py` is not among the sources; §4.1
says the Collection Iterator is constructed with (client handle,
collection path, optional resume cursor, optional overall limit,
optional batch size). -/
structure Iterator where
  client : ClientModel
  path : String
  cursor : Option String
  limit : Option Nat
  batch_size : Option Nat

/-- Modelled from the spec: `feed.py` is not among the sources; §4.2 says
the Feed Iterator is constructed with (client handle, feed type tag,
optional starting cursor). -/
structure Feed where
  client : ClientModel
  feed_type : FeedType
  cursor : Option String

namespace Client

/-- `Client.iterator`: returns
`Iterator(self, path, cursor=cursor, limit=limit, batch_size=batch_size)`.
The second component records the HTTP requests the call itself issues:
it is a plain constructor call, so there are none. -/
def iterator (c : ClientModel) (path : String) (cursor : Option String)
    (limit batch_size : Option Nat) : Iterator × List String :=
  (⟨c, path, cursor, limit, batch_size⟩, [])

/-- `Client.feed`: returns `Feed(self, feed_type, cursor=cursor)`.  The
second component records the HTTP requests the call itself issues: it is
a plain constructor call, so there are none. -/
def feed (c : ClientModel) (feed_type : FeedType) (cursor : Option String) :
    Feed × List String :=
  (⟨c, feed_type, cursor⟩, [])

end Client

/-- One collection page as the server returns it: raw records and an
optional next-page cursor (`meta.cursor`); no cursor marks the terminal
page (spec §4.1 step 6). -/
structure Page where
  records : List Json
  nextCursor : Option String

/-- Decode each raw record of a page (spec §4.1 step 6); a record that
fails decoding surfaces the decode error, aborting iteration. -/
def decodeRecords : List Json → Except PyErr (List VTObject)
  | [] => .ok []
  | r :: rs => do
    let o ← Object.from_dict r
    let os ← decodeRecords rs
    return o :: os

/-- Has the iterator reached its configured limit?  (`none` means
unbounded, spec §3.) -/
def atLimit (limit : Option Nat) (count : Nat) : Bool :=
  match limit with
  | some l => l ≤ count
  | none => false

/-- Modelled from the spec: yield the front of the current page's buffer
one object at a time (spec §4.1 step 2), incrementing the yielded count,
stopping as soon as the configured limit is reached (the §3 invariant
that the yielded count never exceeds the limit). -/
def drainCount (limit : Option Nat) : Nat → List VTObject → List VTObject
  | _, [] => []
  | count, o :: rest =>
    if atLimit limit count then []
    else o :: drainCount limit (count + 1) rest

/-- Modelled from the spec: `iterator.py` is not among the sources; this
is the §4.1 algorithm run to completion against a server that serves the
given pages in order.  Starting with `count` objects already yielded, it
fetches a page, decodes it (a decode error aborts iteration), drains the
buffer subject to the limit, and continues to the next page unless the
page was terminal (no `meta.cursor`) or the limit was reached. -/
def runPages (limit : Option Nat) : Nat → List Page → List VTObject
  | _, [] => []
  | count, p :: ps =>
    if atLimit limit count then []
    else
      match decodeRecords p.records with
      | .error _ => []
      | .ok objs =>
        let ys := drainCount limit count objs
        if p.nextCursor.isNone then ys
        else ys ++ runPages limit (count + ys.length) ps

/-- The whole lifetime of a freshly constructed Collection Iterator
driven against the given server pages: every object it ever yields. -/
def Iterator.run (it : Iterator) (pages : List Page) : List VTObject :=
  runPages it.limit 0 pages

/-- One server response to a feed fetch of the current time window. -/
inductive FeedResp where
  | notFound
  | success (batch : List VTObject)

/-- The Feed Iterator's failure outcome for a next-batch request
(spec §7): the requested window never became available within the
bounded retry budget. -/
inductive FeedError where
  | retriesExhausted

/-- The Feed Iterator's per-window state: the current minute-granularity
window cursor, abstracted as the index of the minute (advancing to the
next minute boundary is `+ 1`). -/
structure FeedState where
  cursor : Nat

/-- Modelled from the spec: `feed.py` is not among the sources; this is
the §4.2 next-batch algorithm.  `resps` are the server's consecutive
responses for the current window and `retries` is the remaining retry
budget.  A not-found response consumes one retry and re-fetches the same
window; once the budget is exhausted the next not-found raises
`RetriesExhaustedError` and the state keeps the unchanged cursor.  On
success the batch is returned and the cursor advances one minute. -/
def nextBatch (st : FeedState) :
    List FeedResp → Nat → Except (FeedError × FeedState) (List VTObject × FeedState)
  | .success batch :: _, _ => .ok (batch, ⟨st.cursor + 1⟩)
  | .notFound :: _, 0 => .error (.retriesExhausted, st)
  | .notFound :: rs, r + 1 => nextBatch st rs r
  | [], _ => .error (.retriesExhausted, st)

/-! ## Helper lemmas -/

theorem exceptBind_ok {α β ε : Type} (a : α) (f : α → Except ε β) :
    ((Except.ok a : Except ε α) >>= f) = f a := rfl

theorem exceptBind_error {α β ε : Type} (e : ε) (f : α → Except ε β) :
    ((Except.error e : Except ε α) >>= f) = Except.error e := rfl

theorem exceptPure {α ε : Type} (a : α) :
    (pure a : Except ε α) = Except.ok a := rfl

theorem exceptThrow {α ε : Type} (e : ε) :
    (throw e : Except ε α) = Except.error e := rfl

/-- A 200 response classifies as no error. -/
theorem get_error_200 (resp : Response) (h : resp.status = 200) :
    Client.get_error resp = .ok none := by
  simp [Client.get_error, h]

/-- A 200 response with a parseable body makes
`get_json_response_async` return the parsed body. -/
theorem get_json_ok_of_200 (resp : Response) (j : Json)
    (h : resp.status = 200) (hj : resp.jsonBody = some j) :
    Client.get_json_response_async resp = .ok j := by
  simp [Client.get_json_response_async, get_error_200 resp h, exceptBind_ok,
    Response.json, hj]

/-- On a non-200 response, `get_error` either raises or classifies some
error; it never reports success. -/
theorem get_error_nonsuccess (resp : Response) (h200 : resp.status ≠ 200) :
    (∃ pe, Client.get_error resp = .error pe) ∨
    (∃ e, Client.get_error resp = .ok (some e)) := by
  by_cases h4 : 400 ≤ resp.status ∧ resp.status ≤ 499
  · cases hj : resp.json with
    | error e =>
      exact .inl ⟨e, by
        simp [Client.get_error, h200, h4, hj, exceptBind_error]⟩
    | ok j =>
      cases hg : j.pyGet "error" with
      | error e2 =>
        exact .inl ⟨e2, by
          simp [Client.get_error, h200, h4, hj, hg, exceptBind_ok,
            exceptBind_error]⟩
      | ok eo =>
        cases eo with
        | none =>
          exact .inr ⟨.api (.str "ClientError") (.str resp.text), by
            simp [Client.get_error, h200, h4, hj, hg, exceptBind_ok,
              exceptPure]⟩
        | some e =>
          by_cases ht : e.truthy
          · cases hf : APIError.from_dict e with
            | error e3 =>
              exact .inl ⟨e3, by
                simp [Client.get_error, h200, h4, hj, hg, ht, hf,
                  exceptBind_ok, exceptBind_error]⟩
            | ok a =>
              exact .inr ⟨a, by
                simp [Client.get_error, h200, h4, hj, hg, ht, hf,
                  exceptBind_ok, exceptPure]⟩
          · exact .inr ⟨.api (.str "ClientError") (.str resp.text), by
              simp [Client.get_error, h200, h4, hj, hg, ht, exceptBind_ok,
                exceptPure]⟩
  · exact .inr ⟨.api (.str "ServerError") (.str resp.text), by
      simp [Client.get_error, h200, h4]⟩

/-! ## Theorems for the claims -/

/-- C9: `Client._full_url` returns the path unchanged when it starts with
`http`, and otherwise prepends the client's host and the `/api/v3`
endpoint prefix exactly once. -/
theorem full_url_classifies (host path : String) :
    (startsWithChars path.data "http".data = true →
      Client.full_url host path = path) ∧
    (startsWithChars path.data "http".data = false →
      Client.full_url host path = host ++ Client.endpointPfx ++ path) := by
  constructor <;> intro h <;> simp [Client.full_url, h]

/-- Witness for C9 at the concrete paths `/files/abc` and `http://x`. -/
theorem full_url_classifies_witness :
    Client.full_url Client.apiHost "/files/abc" =
      Client.apiHost ++ Client.endpointPfx ++ "/files/abc" ∧
    Client.full_url Client.apiHost "http://x" = "http://x" :=
  ⟨(full_url_classifies Client.apiHost "/files/abc").2 rfl,
   (full_url_classifies Client.apiHost "http://x").1 rfl⟩

/-- C10: `Client.__init__` raises `ValueError` for every falsy API key
(None or the empty string) and no client (hence no session) is created;
for every truthy API key it succeeds, storing the key and the agent, and
setting the host to the given host when that is truthy, else to
`_API_HOST`. -/
theorem init_validates_apikey (apikey host : Option String) (agent : String) :
    (strTruthy apikey = false →
      Client.init apikey agent host =
        .error (.valueError ("Expecting API key, got: " ++ pyStrOfOpt apikey))) ∧
    (strTruthy apikey = true →
      ∃ c : ClientModel, Client.init apikey agent host = .ok c ∧
        some c.apikey = apikey ∧ c.agent = agent ∧
        c.host = (if strTruthy host then host.getD "" else Client.apiHost)) := by
  constructor <;> intro h
  · simp [Client.init, h]
  · cases apikey with
    | none => simp [strTruthy] at h
    | some s =>
      exact ⟨⟨if strTruthy host then host.getD "" else Client.apiHost, s, agent⟩,
        by simp [Client.init, h], rfl, rfl, rfl⟩

/-- Witness for C10: a `None` API key is rejected, a real key with an
explicit host is stored. -/
theorem init_validates_apikey_witness :
    Client.init none "unknown" none =
      .error (.valueError ("Expecting API key, got: " ++ pyStrOfOpt none)) ∧
    ∃ c : ClientModel, Client.init (some "key") "agentx" (some "http://h") = .ok c ∧
      some c.apikey = some "key" ∧ c.agent = "agentx" ∧
      c.host = (if strTruthy (some "http://h") then (some "http://h").getD ""
                else Client.apiHost) :=
  ⟨(init_validates_apikey none none "unknown").1 rfl,
   (init_validates_apikey (some "key") (some "http://h") "agentx").2 rfl⟩

/-- C8: the synchronous `Client.close` never completes — its body
re-enters `close` itself instead of delegating to `close_async`, so no
recursion depth suffices for the call to return. -/
theorem close_never_completes : ∀ fuel : Nat, Client.close fuel = none := by
  intro fuel
  induction fuel with
  | zero => rfl
  | succ n ih => simpa [Client.close] using ih

/-- C7: `Client.iterator` returns an `Iterator` built from exactly the
given client, path, cursor, limit and batch size, and `Client.feed`
returns a `Feed` built from exactly the given client, feed type and
cursor; the request log of either call is empty, i.e. neither performs a
fetch. -/
theorem iterator_feed_build_only (c : ClientModel) (path : String)
    (cursor : Option String) (limit batch_size : Option Nat)
    (ft : FeedType) (fcursor : Option String) :
    ((Client.iterator c path cursor limit batch_size).1.client = c ∧
     (Client.iterator c path cursor limit batch_size).1.path = path ∧
     (Client.iterator c path cursor limit batch_size).1.cursor = cursor ∧
     (Client.iterator c path cursor limit batch_size).1.limit = limit ∧
     (Client.iterator c path cursor limit batch_size).1.batch_size = batch_size ∧
     (Client.iterator c path cursor limit batch_size).2 = []) ∧
    ((Client.feed c ft fcursor).1.client = c ∧
     (Client.feed c ft fcursor).1.feed_type = ft ∧
     (Client.feed c ft fcursor).1.cursor = fcursor ∧
     (Client.feed c ft fcursor).2 = []) :=
  ⟨⟨rfl, rfl, rfl, rfl, rfl, rfl⟩, ⟨rfl, rfl, rfl, rfl⟩⟩

/-- C5: with retry budget `R`, a run of `R + 1` consecutive not-found
responses for the current window makes the next-batch operation raise
`RetriesExhaustedError`, and the returned iterator state keeps the
window cursor unchanged. -/
theorem feed_retries_exhausted (R : Nat) (st : FeedState) (rest : List FeedResp) :
    nextBatch st (List.replicate (R + 1) FeedResp.notFound ++ rest) R =
      .error (.retriesExhausted, st) := by
  induction R with
  | zero => rfl
  | succ r ih => simpa [List.replicate_succ, nextBatch] using ih

/-- C1: `Client.get_error` classifies every response by status: 200 is
no error; a 4xx whose parsed body carries a truthy `error` envelope
yields an APIError with the envelope's `code` and `message` (Python
`None`, i.e. null, when the message is absent); a 4xx without such an
envelope yields `APIError('ClientError', raw body text)`; every other
non-200 status yields `APIError('ServerError', raw body text)`. -/
theorem get_error_classifies (resp : Response) :
    (resp.status = 200 → Client.get_error resp = .ok none) ∧
    (∀ j kvs code, 400 ≤ resp.status → resp.status ≤ 499 →
      resp.jsonBody = some j → j.pyGet "error" = .ok (some (.obj kvs)) →
      Json.truthy (.obj kvs) = true → lookupKV kvs "code" = some code →
      Client.get_error resp =
        .ok (some (.api code ((lookupKV kvs "message").getD .null)))) ∧
    (∀ j eo, 400 ≤ resp.status → resp.status ≤ 499 →
      resp.jsonBody = some j → j.pyGet "error" = .ok eo →
      (∀ e, eo = some e → e.truthy = false) →
      Client.get_error resp =
        .ok (some (.api (.str "ClientError") (.str resp.text)))) ∧
    (resp.status ≠ 200 → ¬(400 ≤ resp.status ∧ resp.status ≤ 499) →
      Client.get_error resp =
        .ok (some (.api (.str "ServerError") (.str resp.text)))) := by
  refine ⟨fun h => get_error_200 resp h, ?_, ?_, ?_⟩
  · intro j kvs code h400 h499 hj hg ht hcode
    have h200 : resp.status ≠ 200 := by omega
    have hjson : resp.json = .ok j := by simp [Response.json, hj]
    have hfd : APIError.from_dict (.obj kvs) =
        .ok (.api code ((lookupKV kvs "message").getD .null)) := by
      simp [APIError.from_dict, Json.pyIndex, Json.pyGet, hcode,
        exceptBind_ok, exceptPure]
    simp [Client.get_error, h200, h400, h499, hjson, hg, ht, hfd,
      exceptBind_ok, exceptPure]
  · intro j eo h400 h499 hj hg hfalsy
    have h200 : resp.status ≠ 200 := by omega
    have hjson : resp.json = .ok j := by simp [Response.json, hj]
    cases eo with
    | none =>
      simp [Client.get_error, h200, h400, h499, hjson, hg, exceptBind_ok,
        exceptPure]
    | some e =>
      have ht : e.truthy = false := hfalsy e rfl
      simp [Client.get_error, h200, h400, h499, hjson, hg, ht,
        exceptBind_ok, exceptPure]
  · intro h200 h4
    simp [Client.get_error, h200, h4]

/-- Witness for C1: a 404 with an error envelope maps to the envelope's
code and message, a 404 without one maps to `ClientError`, a 500 maps to
`ServerError`, and a 200 maps to no error. -/
theorem get_error_classifies_witness :
    Client.get_error ⟨200, "", some (.obj [])⟩ = .ok none ∧
    Client.get_error
        ⟨404, "raw",
         some (.obj [("error",
           .obj [("code", .str "NotFoundError"),
                 ("message", .str "not found")])])⟩ =
      .ok (some (.api (.str "NotFoundError") (.str "not found"))) ∧
    Client.get_error ⟨404, "raw", some (.obj [("x", .null)])⟩ =
      .ok (some (.api (.str "ClientError") (.str "raw"))) ∧
    Client.get_error ⟨500, "boom", some (.obj [])⟩ =
      .ok (some (.api (.str "ServerError") (.str "boom"))) :=
  ⟨(get_error_classifies ⟨200, "", some (.obj [])⟩).1 rfl,
   (get_error_classifies _).2.1
     (.obj [("error", .obj [("code", .str "NotFoundError"),
            ("message", .str "not found")])])
     [("code", .str "NotFoundError"), ("message", .str "not found")]
     (.str "NotFoundError") (by decide) (by decide) rfl rfl rfl rfl,
   (get_error_classifies _).2.2.1 (.obj [("x", .null)]) none
     (by decide) (by decide) rfl rfl (fun e h => by cases h),
   (get_error_classifies _).2.2.2 (by decide) (by decide)⟩

/-- C2: `Client.get_json_response_async` returns the parsed JSON body
exactly when the status is 200; on any non-200 status it raises the
error `get_error` classified (or the exception `get_error` itself
raised), and it never returns a value. -/
theorem get_json_response_only_200 (resp : Response) :
    (∀ j, resp.status = 200 → resp.jsonBody = some j →
      Client.get_json_response_async resp = .ok j) ∧
    (resp.status ≠ 200 →
      (∀ e, Client.get_error resp = .ok (some e) →
        Client.get_json_response_async resp = .error e) ∧
      (∀ pe, Client.get_error resp = .error pe →
        Client.get_json_response_async resp = .error pe) ∧
      ∀ j, Client.get_json_response_async resp ≠ .ok j) := by
  refine ⟨fun j h hj => get_json_ok_of_200 resp j h hj, fun h200 => ⟨?_, ?_, ?_⟩⟩
  · intro e he
    simp [Client.get_json_response_async, he, exceptBind_ok, exceptThrow]
  · intro pe hpe
    simp [Client.get_json_response_async, hpe, exceptBind_error]
  · intro j hj
    rcases get_error_nonsuccess resp h200 with ⟨pe, hpe⟩ | ⟨e, he⟩
    · rw [show Client.get_json_response_async resp = .error pe by
        simp [Client.get_json_response_async, hpe, exceptBind_error]] at hj
      cases hj
    · rw [show Client.get_json_response_async resp = .error e by
        simp [Client.get_json_response_async, he, exceptBind_ok,
          exceptThrow]] at hj
      cases hj

/-- Witness for C2: a 200 response returns its body, a 500 response
raises the classified `ServerError`. -/
theorem get_json_response_only_200_witness :
    Client.get_json_response_async ⟨200, "", some (.obj [("data", .null)])⟩ =
      .ok (.obj [("data", .null)]) ∧
    Client.get_json_response_async ⟨500, "boom", none⟩ =
      .error (.api (.str "ServerError") (.str "boom")) :=
  ⟨(get_json_response_only_200 _).1 (.obj [("data", .null)]) rfl rfl,
   ((get_json_response_only_200 ⟨500, "boom", none⟩).2 (by decide)).1
     (.api (.str "ServerError") (.str "boom")) rfl⟩

/-- C3: on a status-200 response whose parsed body is a JSON object,
`Client.get_data_async` returns the body's `data` field when it is
present, and raises a `ValueError` whose message names the path when it
is absent. -/
theorem get_data_extracts (path : String) (resp : Response)
    (kvs : List (String × Json)) :
    resp.status = 200 → resp.jsonBody = some (.obj kvs) →
    (∀ d, lookupKV kvs "data" = some d →
      Client.get_data_async path resp = .ok d) ∧
    (lookupKV kvs "data" = none →
      Client.get_data_async path resp =
        .error (.valueError (path ++ " does not returns a data field"))) := by
  intro h200 hj
  have hjr : Client.get_json_response_async resp = .ok (.obj kvs) :=
    get_json_ok_of_200 resp (.obj kvs) h200 hj
  constructor
  · intro d hd
    simp [Client.get_data_async, hjr, exceptBind_ok, Json.pyContains,
      Json.pyIndex, hd]
  · intro hd
    simp [Client.get_data_async, hjr, exceptBind_ok, Json.pyContains, hd,
      exceptThrow]

/-- Witness for C3: a 200 body with a `data` field yields that field, a
200 body without one raises the path-naming `ValueError`. -/
theorem get_data_extracts_witness :
    Client.get_data_async "/files/x" ⟨200, "", some (.obj [("data", .num 7)])⟩ =
      .ok (.num 7) ∧
    Client.get_data_async "/files/x" ⟨200, "", some (.obj [("meta", .null)])⟩ =
      .error (.valueError ("/files/x" ++ " does not returns a data field")) :=
  ⟨(get_data_extracts "/files/x" _ [("data", .num 7)] rfl rfl).1 (.num 7) rfl,
   (get_data_extracts "/files/x" _ [("meta", .null)] rfl rfl).2 rfl⟩

/-- C6: when the fetched data field fails object decoding with a
`ValueError`, `Client.get_object_async` raises a `ValueError` naming the
path and the underlying decode failure; nothing else happens to the
error. -/
theorem get_object_wraps_decode_error (path : String) (resp : Response)
    (d : Json) (msg : String) :
    Client.get_data_async path resp = .ok d →
    Object.from_dict d = .error (.valueError msg) →
    Client.get_object_async path resp =
      .error (.valueError (path ++ " did not return an object: " ++ msg)) := by
  intro hd hf
  simp [Client.get_object_async, hd, hf, exceptBind_ok]

/-- Witness for C6: a 200 response whose `data` is the number 5 (not a
record with identity fields) makes `get_object_async` raise the wrapped
`ValueError`. -/
theorem get_object_wraps_decode_error_witness :
    Client.get_object_async "/files/x" ⟨200, "", some (.obj [("data", .num 5)])⟩ =
      .error (.valueError ("/files/x" ++ " did not return an object: " ++
        "record lacks required identity fields")) :=
  get_object_wraps_decode_error "/files/x" _ (.num 5)
    "record lacks required identity fields" rfl rfl

/-- Draining a page buffer yields at most the room the limit leaves. -/
theorem drainCount_length_le (L : Nat) (os : List VTObject) :
    ∀ count, (drainCount (some L) count os).length ≤ L - count := by
  induction os with
  | nil => intro count; simp [drainCount]
  | cons o rest ih =>
    intro count
    by_cases h : atLimit (some L) count = true
    · simp [drainCount, h]
    · have hlt : count < L := by simp [atLimit] at h; omega
      have := ih (count + 1)
      simp [drainCount, h]
      omega

/-- A full run of the Collection Iterator yields at most the room the
limit leaves. -/
theorem runPages_length_le (L : Nat) (pages : List Page) :
    ∀ count, (runPages (some L) count pages).length ≤ L - count := by
  induction pages with
  | nil => intro count; simp [runPages]
  | cons p ps ih =>
    intro count
    by_cases h : atLimit (some L) count = true
    · simp [runPages, h]
    · cases hd : decodeRecords p.records with
      | error e => simp [runPages, h, hd]
      | ok objs =>
        by_cases hterm : p.nextCursor.isNone
        · simpa [runPages, h, hd, hterm] using drainCount_length_le L objs count
        · have h1 := drainCount_length_le L objs count
          have h2 := ih (count + (drainCount (some L) count objs).length)
          simp [runPages, h, hd, hterm]
          omega

/-- C4: a Collection Iterator constructed with limit `L` never yields
more than `L` objects over its whole lifetime, whatever the batch size
and whatever pages the server serves. -/
theorem iterator_respects_limit (it : Iterator) (pages : List Page) (L : Nat)
    (h : it.limit = some L) :
    (it.run pages).length ≤ L := by
  simpa [Iterator.run, h] using runPages_length_le L pages 0

/-- Witness for C4: an iterator limited to 2 yields at most 2 objects
from a server holding one 3-record page. -/
theorem iterator_respects_limit_witness :
    (Iterator.run
      ⟨⟨Client.apiHost, "k", "unknown"⟩, "/comments", none, some 2, none⟩
      [⟨[.obj [("id", .str "a"), ("type", .str "file")],
         .obj [("id", .str "b"), ("type", .str "file")],
         .obj [("id", .str "c"), ("type", .str "file")]], none⟩]).length ≤ 2 :=
  iterator_respects_limit _ _ 2 rfl
